import Mathlib

/-!
Shallow embedding of the rosserial_server per-connection protocol engine
(src/rosserial_server/src/Session.h): the frame codec, the receive state
machine, the read-failure classification, the sync watchdog and the topic
registration handlers, together with theorems checking the specification
claims against it.

Machine integers are modelled as Nat with explicit reduction mod 256 or
mod 65536 wherever the uint8_t / uint16_t arithmetic of the source
truncates.  Byte streams are List Nat.  The continuation-passing
asynchronous reads of the source are modelled by an explicit pending-read
state (Pending) plus a fuel-indexed driver (session_run) handing each
handler function exactly the byte count it requested; each handler mirrors
one member function of Session.h.
-/

namespace Session

/-- Protocol version enum, Session.h lines 56-60. -/
inductive Version
  | unknown
  | ver1
  | ver2
deriving DecidableEq, Repr

/-- One tag per ROS_WARN site of Session.h that the claims refer to. -/
inductive Wtag
  | badLengthChecksum
  | lengthExceedsMax
  | badChecksum
  | unrecognizedTopic
  | rxOverrun
deriving DecidableEq, Repr

/-- The pending buffered-reader request: which continuation will receive the
next bytes, mirroring the buffer_.read(n, continuation) call chain.
idLength carries the byte count issued by read_sync_second (4 for VER1, 5
for VER2); body carries the parsed topic id and declared payload length. -/
inductive Pending
  | syncFirst
  | syncSecond
  | idLength (n : Nat)
  | body (topic_id : Nat) (length : Nat)
deriving DecidableEq, Repr

/-- Modelled from the spec: the reserved topic ids of the external
rosserial_msgs/TopicInfo message (its package is not under src/); built-in
registration and time-sync ids are below the reserved threshold 100. -/
def ID_PUBLISHER : Nat := 0

/-- Modelled from the spec: reserved subscriber-registration topic id. -/
def ID_SUBSCRIBER : Nat := 1

/-- Modelled from the spec: reserved time-sync topic id. -/
def ID_TIME : Nat := 10

/-- Session.h line 14. -/
def INT16_MAX : Nat := 0x7fff

/-- Fixed capacity of the AsyncReadBuffer, Session.h line 301. -/
def buffer_max : Nat := 1023

/-- Retry (sync attempt) interval in milliseconds, Session.h line 24. -/
def attempt_interval : Nat := 1000

/-- Liveness timeout interval in milliseconds, Session.h line 23. -/
def timeout_interval : Nat := 5000

/-- Observable session state: the version, the three topic-keyed maps
(tracked by their key sets), the outstanding timer waits, and the
instrumented observable outputs (probe count, write queue, dispatched
frames, warnings). -/
structure SessionState where
  clientVersion : Version
  callbacks : List Nat
  publishers : List Nat
  subscribers : List Nat
  pendingTimers : List Nat
  probes : Nat
  writes : List (List Nat)
  dispatches : List (Nat × List Nat)
  warnings : List Wtag
deriving DecidableEq, Repr

/-- The uint8_t accumulation loop of message_checksum, lines 249-251. -/
def sum_bytes (init : Nat) (bs : List Nat) : Nat :=
  bs.foldl (fun sum b => (sum + b) % 256) init

/-- Session.h lines 247-253: sum the two topic-id bytes, the two
stream-length bytes and every stream byte in uint8_t arithmetic, and return
255 minus that sum. -/
def message_checksum (bs : List Nat) (topic_id : Nat) : Nat :=
  255 - sum_bytes ((topic_id / 256 + topic_id + bs.length / 256 + bs.length) % 256) bs

/-- Failure modes of the encode path: vector::at on an empty buffer and an
OStream write past the end of the buffer both raise in the source. -/
inductive WriteErr
  | outOfRange
  | streamOverrun
deriving DecidableEq, Repr

/-- Session.h lines 173-200 (write_message).  The default (unknown-version)
arm of the switch only logs: execution continues with overhead_bytes = 0.
The OStream then always writes the two 0xFF sync bytes, the topic id, the
payload length, the payload and the checksum byte — 7 + n bytes — into a
zero-initialised buffer of overhead_bytes + n bytes, so a VER2 frame gets
the VER1 preamble, no length checksum, and one trailing zero byte, and an
unknown-version frame faults on the undersized buffer. -/
def write_message (message : List Nat) (topic_id : Nat) (version : Version) :
    Except WriteErr (List Nat) :=
  let overhead_bytes : Nat :=
    match version with
    | .ver1 => 7
    | .ver2 => 8
    | .unknown => 0
  let length := (overhead_bytes + message.length) % 65536
  if length = 0 then
    .error .outOfRange
  else
    let checksum := message_checksum message topic_id
    let written :=
      [255, 255, topic_id % 256, topic_id / 256 % 256,
        message.length % 65536 % 256, message.length % 65536 / 256] ++
        message ++ [checksum]
    if length < written.length then
      .error .streamOverrun
    else
      .ok (written ++ List.replicate (length - written.length) 0)

/-- Session.h lines 204-207: hand a completed frame to the transport write
queue. -/
def write_buffer (s : SessionState) (bytes : List Nat) : SessionState :=
  { s with writes := s.writes ++ [bytes] }

/-- write_message as invoked on a live session: a successfully encoded frame
is dispatched to write_buffer on the io_service; on an encode fault nothing
reaches the write queue. -/
def session_write_message (s : SessionState) (message : List Nat)
    (topic_id : Nat) (version : Version) : SessionState :=
  match write_message message topic_id version with
  | .ok bytes => write_buffer s bytes
  | .error _ => s

/-- deadline_timer cancel: every outstanding wait is aborted. -/
def sync_timer_cancel (s : SessionState) : SessionState :=
  { s with pendingTimers := [] }

/-- deadline_timer async_wait: one more outstanding wait. -/
def sync_timer_async_wait (s : SessionState) (interval : Nat) : SessionState :=
  { s with pendingTimers := s.pendingTimers ++ [interval] }

/-- Session.h lines 225-230: cancel the pending timer, set the new expiry,
arm a new wait. -/
def set_sync_timeout (s : SessionState) (interval : Nat) : SessionState :=
  sync_timer_async_wait (sync_timer_cancel s) interval

/-- Session.h lines 241-245: send the topics-request probe (empty message on
the reserved publisher id, always encoded as VER1). probes counts them. -/
def request_topics (s : SessionState) : SessionState :=
  session_write_message { s with probes := s.probes + 1 } [] ID_PUBLISHER .ver1

/-- Session.h lines 220-223. -/
def attempt_sync (s : SessionState) : SessionState :=
  set_sync_timeout (request_topics s) attempt_interval

/-- Completion code delivered to a timer handler. -/
inductive TimerCode
  | ok
  | operationAborted
deriving DecidableEq, Repr

/-- Session.h lines 232-238: the watchdog handler.  A delivery with
operation_aborted returns immediately; a genuine expiry warns and runs
attempt_sync. -/
def sync_timeout (s : SessionState) (error : TimerCode) : SessionState :=
  match error with
  | .operationAborted => s
  | .ok => attempt_sync s

/-- Events of the cooperatively scheduled timer subsystem: a pending wait
expiring (its handler is delivered with code ok, leaving the pending set),
a cancelled handler being delivered with operation_aborted, and a
reschedule performed by a registration or time-sync handler. -/
inductive SyncEvent
  | expire
  | abortedCallback
  | reschedule (interval : Nat)

/-- One timer-subsystem event. -/
def sync_step (s : SessionState) : SyncEvent → SessionState
  | .expire =>
    match s.pendingTimers with
    | [] => s
    | _ :: rest => sync_timeout { s with pendingTimers := rest } .ok
  | .abortedCallback => sync_timeout s .operationAborted
  | .reschedule interval => set_sync_timeout s interval

/-- Completion code handed to read_failed by the buffered reader. -/
inductive ErrCode
  | ok
  | noBufferSpace
  | other (code : Nat)
deriving DecidableEq, Repr

/-- Outcome of read_failed: resume parsing at the sync search, or cancel the
socket and destroy the session (torndown records that socket_.cancel() ran
and which collaborators the destruction releases), or no action for a
zero error code. -/
inductive ReadFailOutcome
  | resync (s : SessionState) (next : Pending)
  | torndown (socketCancelled : Bool)
      (releasedPublishers releasedSubscribers : List Nat)
  | noop (s : SessionState)
deriving DecidableEq, Repr

/-- Session.h lines 156-169: no_buffer_space warns and restarts the sync
search; any other nonzero error cancels the socket and deletes the session,
destroying all publishers and subscribers. -/
def read_failed (s : SessionState) (error : ErrCode) : ReadFailOutcome :=
  if error = .noBufferSpace then
    .resync { s with warnings := .rxOverrun :: s.warnings } .syncFirst
  else if error ≠ .ok then
    .torndown true s.publishers s.subscribers
  else
    .noop s

/-- Modelled from the spec: the Buffered Reader request primitive
(AsyncReadBuffer.h is not under src/; only its capacity, buffer_max, is).
request(n, continuation): when n exceeds the fixed capacity the request
fails immediately with the no-buffer-space condition, reported through
read_failed; otherwise the continuation will be invoked with exactly n
bytes. -/
def buffer_read (s : SessionState) (n : Nat) (continuation : Pending) :
    SessionState × Pending :=
  if buffer_max < n then
    match read_failed s .noBufferSpace with
    | .resync s2 p2 => (s2, p2)
    | _ => (s, .syncFirst)
  else
    (s, continuation)

/-- Session.h lines 70-78: first sync byte; anything but 0xFF re-requests a
single byte. -/
def read_sync_first (s : SessionState) (sync : Nat) : SessionState × Pending :=
  if sync = 255 then (s, .syncSecond) else (s, .syncFirst)

/-- Session.h lines 80-99: second sync byte.  While the version is unknown,
0xFF fixes VER1 and 0xFE fixes VER2; then a byte matching the fixed
version requests the 4-byte (VER1) or 5-byte (VER2) header, and anything
else restarts the sync search. -/
def read_sync_second (s : SessionState) (sync : Nat) : SessionState × Pending :=
  let s2 :=
    if s.clientVersion = .unknown then
      if sync = 255 then { s with clientVersion := .ver1 }
      else if sync = 254 then { s with clientVersion := .ver2 }
      else s
    else s
  if sync = 255 ∧ s2.clientVersion = .ver1 then
    buffer_read s2 4 (.idLength 4)
  else if sync = 254 ∧ s2.clientVersion = .ver2 then
    buffer_read s2 5 (.idLength 5)
  else
    (s2, .syncFirst)

/-- The uint8_t recomputation of the VER2 length checksum, line 108. -/
def length_checksum_computed (length : Nat) : Nat :=
  255 - ((length % 256 + length / 256) % 256)

/-- Session.h lines 115-125, the tail of read_id_length after the VER2
length-checksum block: the INT16_MAX bound check, then the request for
length + 1 body bytes. -/
def read_id_length_rest (s : SessionState) (topic_id length : Nat) :
    SessionState × Pending :=
  if INT16_MAX < length then
    ({ s with warnings := .lengthExceedsMax :: s.warnings }, .syncFirst)
  else
    buffer_read s (length + 1) (.body topic_id length)

/-- Session.h lines 101-126: parse the little-endian topic id and length;
for VER2 also a length-checksum byte that must match, else warn and resync.
The final catch-all arms are stream underruns, unreachable because the
issued read sizes match what the extractions consume. -/
def read_id_length (s : SessionState) (bs : List Nat) : SessionState × Pending :=
  match bs with
  | t0 :: t1 :: l0 :: l1 :: rest =>
    let topic_id := t0 + 256 * t1
    let length := l0 + 256 * l1
    if s.clientVersion = .ver2 then
      match rest with
      | length_checksum :: _ =>
        if length_checksum ≠ length_checksum_computed length then
          ({ s with warnings := .badLengthChecksum :: s.warnings }, .syncFirst)
        else
          read_id_length_rest s topic_id length
      | [] => (s, .syncFirst)
    else
      read_id_length_rest s topic_id length
  | _ => (s, .syncFirst)

/-- Session.h lines 128-154: validate the checksum over all length + 1
received bytes (payload plus trailing checksum byte); on success, if the
topic id has a dispatch entry, hand the same byte range to the handler
(recorded in dispatches), otherwise warn about the unrecognized topic; on a
bad checksum warn and dispatch nothing.  Always resume the sync search.
The side effects of the built-in handlers (setup_publisher,
setup_subscriber, handle_time) are the separate functions below, since
their argument parsing runs through the external message serializer. -/
def read_body (s : SessionState) (topic_id : Nat) (bs : List Nat) :
    SessionState × Pending :=
  let s2 :=
    if message_checksum bs topic_id ≠ 255 then
      { s with warnings := .badChecksum :: s.warnings }
    else if topic_id ∈ s.callbacks then
      { s with dispatches := s.dispatches ++ [(topic_id, bs)] }
    else
      { s with warnings := .unrecognizedTopic :: s.warnings }
  (s2, .syncFirst)

/-- Insertion into a topic-id-keyed map, tracking only the key set. -/
def insertKey (k : Nat) (l : List Nat) : List Nat :=
  if k ∈ l then l else l ++ [k]

/-- Session.h lines 260-269: record the publisher collaborator, add its
dispatch entry, and reset the liveness timeout.  topic_id stands for the id
decoded from the TopicInfo message by the external serializer. -/
def setup_publisher (s : SessionState) (topic_id : Nat) : SessionState :=
  set_sync_timeout
    { s with publishers := insertKey topic_id s.publishers,
             callbacks := insertKey topic_id s.callbacks }
    timeout_interval

/-- Session.h lines 271-280: record the subscriber collaborator and reset
the liveness timeout; the dispatch table and the publisher map are not
touched. -/
def setup_subscriber (s : SessionState) (topic_id : Nat) : SessionState :=
  set_sync_timeout { s with subscribers := insertKey topic_id s.subscribers }
    timeout_interval

/-- Session.h lines 282-297: serialize the current time (time_bytes stands
for the bytes the external serializer produced), send it on the time topic
with the connection version, and reset the liveness timeout. -/
def handle_time (s : SessionState) (time_bytes : List Nat) : SessionState :=
  set_sync_timeout
    (session_write_message s time_bytes ID_TIME s.clientVersion)
    timeout_interval

/-- Session.h lines 21-36, the constructor: version unknown, the three
built-in dispatch entries, nothing else registered, no timer armed yet. -/
def session_construct : SessionState :=
  { clientVersion := .unknown
    callbacks := [ID_PUBLISHER, ID_SUBSCRIBER, ID_TIME]
    publishers := []
    subscribers := []
    pendingTimers := []
    probes := 0
    writes := []
    dispatches := []
    warnings := [] }

/-- A constructed session whose version has been fixed to VER1. -/
def session_ver1 : SessionState :=
  { session_construct with clientVersion := .ver1 }

/-- A constructed session whose version has been fixed to VER2. -/
def session_ver2 : SessionState :=
  { session_construct with clientVersion := .ver2 }

/-- Byte count of the read request belonging to a pending continuation. -/
def request_size : Pending → Nat
  | .syncFirst => 1
  | .syncSecond => 1
  | .idLength n => n
  | .body _ length => length + 1

/-- Route the delivered bytes to the pending continuation. -/
def dispatch_step (s : SessionState) (p : Pending) (bs : List Nat) :
    SessionState × Pending :=
  match p, bs with
  | .syncFirst, sync :: _ => read_sync_first s sync
  | .syncSecond, sync :: _ => read_sync_second s sync
  | .syncFirst, [] => (s, .syncFirst)
  | .syncSecond, [] => (s, .syncSecond)
  | .idLength _, rest => read_id_length s rest
  | .body topic_id _, rest => read_body s topic_id rest

/-- Drive the receive state machine over an input byte stream: each step
hands the pending continuation exactly the bytes it requested, stopping
when the input can no longer satisfy the request (the machine then blocks
awaiting further transport data).  Fuel bounds the step count. -/
def session_run : Nat → SessionState → Pending → List Nat →
    SessionState × Pending
  | 0, s, p, _ => (s, p)
  | fuel + 1, s, p, input =>
    if input.length < request_size p then
      (s, p)
    else
      let next := dispatch_step s p (input.take (request_size p))
      session_run fuel next.1 next.2 (input.drop (request_size p))

/-! ### Checksum arithmetic lemmas -/

theorem sum_bytes_cons (init b : Nat) (bs : List Nat) :
    sum_bytes init (b :: bs) = sum_bytes ((init + b) % 256) bs := rfl

theorem sum_bytes_mod (a : Nat) (bs : List Nat) :
    sum_bytes (a % 256) bs = (a + bs.sum) % 256 := by
  induction bs generalizing a with
  | nil => simp [sum_bytes]
  | cons b bs ih =>
    rw [sum_bytes_cons]
    have h : (a % 256 + b) % 256 = (a + b) % 256 := by omega
    rw [h, ih (a + b), List.sum_cons]
    omega

theorem message_checksum_eq (bs : List Nat) (t : Nat) :
    message_checksum bs t =
      255 - ((t / 256 + t + bs.length / 256 + bs.length + bs.sum) % 256) := by
  unfold message_checksum
  rw [sum_bytes_mod]

theorem message_checksum_eq_255 (bs : List Nat) (t : Nat) :
    message_checksum bs t = 255 ↔
      (t / 256 + t + bs.length / 256 + bs.length + bs.sum) % 256 = 0 := by
  rw [message_checksum_eq]
  omega

theorem xor_bit_ne (c k : Nat) : c ^^^ (1 <<< k) ≠ c := by
  intro h
  have h2 : c ^^^ (c ^^^ (1 <<< k)) = c ^^^ c := by rw [h]
  rw [← Nat.xor_assoc, Nat.xor_self, Nat.zero_xor] at h2
  have h3 : 0 < 1 <<< k := by
    rw [Nat.shiftLeft_eq, Nat.one_mul]
    exact Nat.two_pow_pos k
  omega

theorem xor_bit_lt_256 (c k : Nat) (hc : c < 256) (hk : k < 8) :
    c ^^^ (1 <<< k) < 256 := by
  have h1 : 1 <<< k < 2 ^ 8 := by
    rw [Nat.shiftLeft_eq, Nat.one_mul]
    exact Nat.pow_lt_pow_right (by omega) hk
  have h2 : c < 2 ^ 8 := by norm_num; omega
  have := Nat.xor_lt_two_pow h2 h1
  norm_num at this
  omega

/-! ### Claim C2: checksum gates dispatch; a flipped checksum bit is rejected -/

/-- C2: a received body is handed to a handler only when its checksum
validates; with an invalid checksum read_body warns, dispatches nothing and
returns to the sync search.  Moreover, flipping any single bit (index k < 8)
of the checksum byte of a valid frame makes the checksum invalid, so the
flipped frame is logged and discarded and never dispatched. -/
theorem c2_checksum_gates_dispatch :
    (∀ s t bs, message_checksum bs t ≠ 255 →
      (read_body s t bs).1.dispatches = s.dispatches ∧
      (read_body s t bs).1.warnings = Wtag.badChecksum :: s.warnings ∧
      (read_body s t bs).2 = Pending.syncFirst) ∧
    (∀ s t p c k, k < 8 → c < 256 →
      message_checksum (p ++ [c]) t = 255 →
      message_checksum (p ++ [c ^^^ (1 <<< k)]) t ≠ 255 ∧
      (read_body s t (p ++ [c ^^^ (1 <<< k)])).1.dispatches = s.dispatches ∧
      (read_body s t (p ++ [c ^^^ (1 <<< k)])).1.warnings =
        Wtag.badChecksum :: s.warnings ∧
      (read_body s t (p ++ [c ^^^ (1 <<< k)])).2 = Pending.syncFirst) := by
  constructor
  · intro s t bs h
    refine ⟨?_, ?_, ?_⟩ <;> simp [read_body, h]
  · intro s t p c k hk hc hvalid
    have hflip : message_checksum (p ++ [c ^^^ (1 <<< k)]) t ≠ 255 := by
      intro hbad
      rw [message_checksum_eq_255] at hvalid hbad
      simp only [List.sum_append, List.length_append, List.sum_cons,
        List.sum_nil, List.length_cons, List.length_nil] at hvalid hbad
      have hne := xor_bit_ne c k
      have hlt := xor_bit_lt_256 c k hc hk
      omega
    refine ⟨hflip, ?_, ?_, ?_⟩ <;> simp [read_body, hflip]

/-- Witness for C2 at concrete inputs: the frame body [5, 250] on topic 0
has a bad checksum and is not dispatched; the body [5, 249] is valid, and
flipping bit 0 of its checksum byte invalidates it. -/
theorem c2_checksum_gates_dispatch_witness :
    (read_body session_construct 0 [5, 250]).1.dispatches =
      session_construct.dispatches ∧
    message_checksum ([5] ++ [249 ^^^ (1 <<< 0)]) 0 ≠ 255 :=
  ⟨(c2_checksum_gates_dispatch.1 session_construct 0 [5, 250] (by decide)).1,
    (c2_checksum_gates_dispatch.2 session_construct 0 [5] 249 0 (by decide)
      (by decide) (by decide)).1⟩

/-! ### Claim C3: write_message with an unknown version -/

/-- C3 (code-bug evidence): with the version still unknown, write_message
does not return after its warning — the switch default only logs — so the
encode continues with overhead_bytes = 0 and faults on the undersized
buffer: vector::at on the empty buffer for an empty message, an OStream
overrun otherwise.  Nothing is enqueued, but by fault, not by refusal. -/
theorem c3_unknown_version_write_faults :
    write_message [] 0 Version.unknown = Except.error WriteErr.outOfRange ∧
    write_message [1, 2, 3] 5 Version.unknown =
      Except.error WriteErr.streamOverrun :=
  ⟨rfl, rfl⟩

/-! ### Claim C7: read-failure classification -/

/-- C7: a no-buffer-space reader failure, in any state, resumes the parse at
the sync search with the session intact; every other nonzero read error
cancels the transport handle and tears the session down, releasing every
registered publisher and subscriber collaborator. -/
theorem c7_read_failed_classification :
    (∀ s, read_failed s ErrCode.noBufferSpace =
      ReadFailOutcome.resync
        { s with warnings := Wtag.rxOverrun :: s.warnings } Pending.syncFirst) ∧
    (∀ s e, e ≠ ErrCode.noBufferSpace → e ≠ ErrCode.ok →
      read_failed s e =
        ReadFailOutcome.torndown true s.publishers s.subscribers) := by
  constructor
  · intro s
    rfl
  · intro s e h1 h2
    simp [read_failed, h1, h2]

/-- Witness for C7 at a concrete error code (ECONNRESET-like). -/
theorem c7_read_failed_classification_witness :
    read_failed session_construct (ErrCode.other 104) =
      ReadFailOutcome.torndown true session_construct.publishers
        session_construct.subscribers :=
  c7_read_failed_classification.2 session_construct (ErrCode.other 104)
    (by decide) (by decide)

/-! ### Claim C8: sync watchdog -/

/-- The concrete bytes of the topics-request probe frame. -/
theorem probe_frame :
    write_message [] ID_PUBLISHER Version.ver1 =
      Except.ok [255, 255, 0, 0, 0, 0, 255] := rfl

/-- C8: rearming the watchdog always cancels the previous wait first, so a
rearm leaves exactly one outstanding wait and every timer event preserves
at-most-one-outstanding; a handler delivered with operation_aborted does
nothing at all; a genuine expiry of the retry timer sends exactly one
topics-request probe and re-arms the retry timer; and the registration
handlers reschedule the longer liveness timeout instead. -/
theorem c8_watchdog_behaviour :
    (∀ s i, (set_sync_timeout s i).pendingTimers = [i]) ∧
    (∀ s, sync_timeout s TimerCode.operationAborted = s) ∧
    (∀ s e, s.pendingTimers.length ≤ 1 →
      (sync_step s e).pendingTimers.length ≤ 1) ∧
    (∀ s i rest, s.pendingTimers = i :: rest →
      (sync_step s SyncEvent.expire).probes = s.probes + 1 ∧
      (sync_step s SyncEvent.expire).writes =
        s.writes ++ [[255, 255, 0, 0, 0, 0, 255]] ∧
      (sync_step s SyncEvent.expire).pendingTimers = [attempt_interval]) ∧
    (∀ s t bs, (setup_publisher s t).pendingTimers = [timeout_interval] ∧
      (setup_subscriber s t).pendingTimers = [timeout_interval] ∧
      (handle_time s bs).pendingTimers = [timeout_interval]) := by
  refine ⟨fun s i => rfl, fun s => rfl, ?_, ?_, ?_⟩
  · intro s e h
    cases e with
    | expire =>
      cases hpt : s.pendingTimers with
      | nil => simp [sync_step, hpt, h]
      | cons i rest =>
        simp [sync_step, hpt, sync_timeout, attempt_sync, set_sync_timeout,
          sync_timer_async_wait, sync_timer_cancel]
    | abortedCallback => simpa [sync_step, sync_timeout] using h
    | reschedule i =>
      simp [sync_step, set_sync_timeout, sync_timer_async_wait,
        sync_timer_cancel]
  · intro s i rest h
    refine ⟨?_, ?_, ?_⟩ <;>
      simp [sync_step, h, sync_timeout, attempt_sync, set_sync_timeout,
        sync_timer_async_wait, sync_timer_cancel, request_topics,
        session_write_message, probe_frame, write_buffer]
  · intro s t bs
    exact ⟨rfl, rfl, rfl⟩

/-- Witness for C8: from a session with the retry timer pending, one expiry
event sends exactly one probe, and the at-most-one invariant holds there. -/
theorem c8_watchdog_behaviour_witness :
    (sync_step { session_construct with pendingTimers := [attempt_interval] }
        SyncEvent.expire).probes =
      { session_construct with pendingTimers := [attempt_interval] }.probes + 1 ∧
    (sync_step { session_construct with pendingTimers := [attempt_interval] }
        SyncEvent.expire).pendingTimers.length ≤ 1 :=
  ⟨(c8_watchdog_behaviour.2.2.2.1
      { session_construct with pendingTimers := [attempt_interval] }
      attempt_interval [] rfl).1,
    c8_watchdog_behaviour.2.2.1
      { session_construct with pendingTimers := [attempt_interval] }
      SyncEvent.expire (by decide)⟩

/-! ### Claim C6: VER2 header validation -/

/-- C6: with the version fixed to VER2, a header whose length-checksum byte
does not match the recomputation is warned about and the machine returns to
the sync search, and a matching length checksum with a declared length
above INT16_MAX is likewise warned about and dropped; in both cases the
resulting pending read is the 1-byte sync search, never the declared body. -/
theorem c6_header_validation (s : SessionState) (t0 t1 l0 l1 lc : Nat)
    (hv : s.clientVersion = Version.ver2) :
    (lc ≠ length_checksum_computed (l0 + 256 * l1) →
      read_id_length s [t0, t1, l0, l1, lc] =
        ({ s with warnings := Wtag.badLengthChecksum :: s.warnings },
          Pending.syncFirst)) ∧
    (INT16_MAX < l0 + 256 * l1 →
      lc = length_checksum_computed (l0 + 256 * l1) →
      read_id_length s [t0, t1, l0, l1, lc] =
        ({ s with warnings := Wtag.lengthExceedsMax :: s.warnings },
          Pending.syncFirst)) := by
  constructor
  · intro h
    simp [read_id_length, hv, h]
  · intro hlen h
    simp [read_id_length, hv, h, read_id_length_rest, hlen]

/-- Witness for C6: a VER2 header declaring length 40000 (bytes 64, 156)
with the matching length checksum 35 is dropped before any body read; the
same header with length-checksum byte 0 fails the length-checksum test. -/
theorem c6_header_validation_witness :
    read_id_length session_ver2 [0, 0, 64, 156, 35] =
      ({ session_ver2 with
          warnings := Wtag.lengthExceedsMax :: session_ver2.warnings },
        Pending.syncFirst) ∧
    read_id_length session_ver2 [0, 0, 64, 156, 0] =
      ({ session_ver2 with
          warnings := Wtag.badLengthChecksum :: session_ver2.warnings },
        Pending.syncFirst) :=
  ⟨(c6_header_validation session_ver2 0 0 64 156 35 rfl).2 (by decide)
      (by decide),
    (c6_header_validation session_ver2 0 0 64 156 0 rfl).1 (by decide)⟩

/-! ### Claim C9: reader capacity caps the receivable payload at 1022 -/

/-- C9: with the version fixed to VER1, a header declaring any length from
1023 up to INT16_MAX passes the maximum-length check, but the body read of
length + 1 bytes exceeds the reader capacity of 1023, so the request fails
with no buffer space and read_failed resumes the sync search — the frame is
never read, so never dispatched; a declared length of at most 1022 is the
largest for which the body read is actually issued. -/
theorem c9_buffer_capacity_gap (s : SessionState) (t0 t1 l0 l1 : Nat)
    (hv : s.clientVersion = Version.ver1) :
    (1023 ≤ l0 + 256 * l1 → l0 + 256 * l1 ≤ INT16_MAX →
      read_id_length s [t0, t1, l0, l1] =
        ({ s with warnings := Wtag.rxOverrun :: s.warnings },
          Pending.syncFirst)) ∧
    (l0 + 256 * l1 ≤ 1022 →
      read_id_length s [t0, t1, l0, l1] =
        (s, Pending.body (t0 + 256 * t1) (l0 + 256 * l1))) := by
  constructor
  · intro h1 h2
    have hmax : ¬ (INT16_MAX < l0 + 256 * l1) := by
      unfold INT16_MAX at h2 ⊢
      omega
    have hbuf : buffer_max < l0 + 256 * l1 + 1 := by
      unfold buffer_max
      omega
    simp [read_id_length, hv, read_id_length_rest, hmax, buffer_read, hbuf,
      read_failed]
  · intro h
    have hmax : ¬ (INT16_MAX < l0 + 256 * l1) := by
      unfold INT16_MAX
      omega
    have hbuf : ¬ (buffer_max < l0 + 256 * l1 + 1) := by
      unfold buffer_max
      omega
    simp [read_id_length, hv, read_id_length_rest, hmax, buffer_read, hbuf]

/-- Witness for C9: declared length 1023 (bytes 255, 3) is dropped by the
no-buffer-space path, declared length 1022 (bytes 254, 3) has its body read
issued. -/
theorem c9_buffer_capacity_gap_witness :
    read_id_length session_ver1 [0, 0, 255, 3] =
      ({ session_ver1 with
          warnings := Wtag.rxOverrun :: session_ver1.warnings },
        Pending.syncFirst) ∧
    read_id_length session_ver1 [0, 0, 254, 3] =
      (session_ver1, Pending.body (0 + 256 * 0) (254 + 256 * 3)) :=
  ⟨(c9_buffer_capacity_gap session_ver1 0 0 255 3 rfl).1 (by decide)
      (by decide),
    (c9_buffer_capacity_gap session_ver1 0 0 254 3 rfl).2 (by decide)⟩

/-! ### Claim C5: what the handler is invoked with -/

/-- C5 counterexample: the valid frame body for topic 0 with payload [5] is
the two bytes [5, 249] (payload plus checksum byte); read_body dispatches
the full two-byte range to the handler, not the bare payload [5]. -/
theorem c5_dispatch_includes_checksum_byte :
    (read_body session_construct 0 ([5] ++ [249])).1.dispatches =
      [(0, [5, 249])] ∧
    ([(0, [5, 249])] : List (Nat × List Nat)) ≠ [(0, [5])] :=
  ⟨by decide, by decide⟩

/-- C5 amended: when a checksum-valid frame has a registered topic id, the
handler is invoked with the entire received body — the payload bytes
followed by the trailing checksum byte — and the machine then resumes the
sync search. -/
theorem c5_amended_full_body_dispatch (s : SessionState) (t : Nat)
    (p : List Nat) (c : Nat) (hcb : t ∈ s.callbacks)
    (hck : message_checksum (p ++ [c]) t = 255) :
    (read_body s t (p ++ [c])).1.dispatches =
      s.dispatches ++ [(t, p ++ [c])] ∧
    (read_body s t (p ++ [c])).2 = Pending.syncFirst := by
  constructor <;> simp [read_body, hck, hcb]

/-- Witness for the amended C5 at the concrete frame of the
counterexample. -/
theorem c5_amended_full_body_dispatch_witness :
    (read_body session_construct 0 ([5] ++ [249])).1.dispatches =
      session_construct.dispatches ++ [(0, [5] ++ [249])] :=
  (c5_amended_full_body_dispatch session_construct 0 [5] 249 (by decide)
    (by decide)).1

/-! ### Claim C10: subscriber registration touches only the subscriber map -/

/-- C10: setup_subscriber leaves the dispatch table and the publisher map
unchanged, records the topic in the subscriber map and reschedules the
liveness timeout; consequently a later checksum-valid inbound frame on a
topic registered only as a subscriber is handled as an unrecognized topic:
a warning, no dispatch, and the machine continues at the sync search. -/
theorem c10_subscriber_only_map (s : SessionState) (t : Nat) :
    (setup_subscriber s t).callbacks = s.callbacks ∧
    (setup_subscriber s t).publishers = s.publishers ∧
    (setup_subscriber s t).subscribers = insertKey t s.subscribers ∧
    (setup_subscriber s t).pendingTimers = [timeout_interval] ∧
    (∀ bs, t ∉ s.callbacks → message_checksum bs t = 255 →
      read_body (setup_subscriber s t) t bs =
        ({ setup_subscriber s t with
            warnings := Wtag.unrecognizedTopic ::
              (setup_subscriber s t).warnings },
          Pending.syncFirst)) := by
  refine ⟨rfl, rfl, rfl, rfl, ?_⟩
  intro bs hnot hck
  have h2 : t ∉ (setup_subscriber s t).callbacks := hnot
  simp [read_body, hck, h2]

/-- Witness for C10: registering topic 200 as a subscriber, then receiving
the valid frame body [55] on topic 200, warns and dispatches nothing. -/
theorem c10_subscriber_only_map_witness :
    read_body (setup_subscriber session_construct 200) 200 [55] =
      ({ setup_subscriber session_construct 200 with
          warnings := Wtag.unrecognizedTopic ::
            (setup_subscriber session_construct 200).warnings },
        Pending.syncFirst) :=
  (c10_subscriber_only_map session_construct 200).2.2.2.2 [55] (by decide)
    (by decide)

/-! ### Claim C4: the version is fixed once and never changes -/

theorem buffer_read_version (s : SessionState) (n : Nat) (k : Pending) :
    (buffer_read s n k).1.clientVersion = s.clientVersion := by
  unfold buffer_read
  split
  · rfl
  · rfl

theorem read_sync_first_version (s : SessionState) (b : Nat) :
    (read_sync_first s b).1.clientVersion = s.clientVersion := by
  unfold read_sync_first
  split <;> rfl

theorem read_sync_second_version (s : SessionState) (b : Nat)
    (h : s.clientVersion ≠ Version.unknown) :
    (read_sync_second s b).1.clientVersion = s.clientVersion := by
  unfold read_sync_second
  simp only [if_neg h]
  split
  · exact buffer_read_version s 4 (.idLength 4)
  · split
    · exact buffer_read_version s 5 (.idLength 5)
    · rfl

theorem read_id_length_rest_version (s : SessionState) (t L : Nat) :
    (read_id_length_rest s t L).1.clientVersion = s.clientVersion := by
  unfold read_id_length_rest
  split
  · rfl
  · exact buffer_read_version s (L + 1) (.body t L)

theorem read_id_length_version (s : SessionState) (bs : List Nat) :
    (read_id_length s bs).1.clientVersion = s.clientVersion := by
  rcases bs with _ | ⟨t0, _ | ⟨t1, _ | ⟨l0, _ | ⟨l1, rest⟩⟩⟩⟩
  all_goals simp only [read_id_length]
  split
  · rcases rest with _ | ⟨lc, rest2⟩
    · rfl
    · simp only []
      split
      · rfl
      · exact read_id_length_rest_version s (t0 + 256 * t1) (l0 + 256 * l1)
  · exact read_id_length_rest_version s (t0 + 256 * t1) (l0 + 256 * l1)

theorem read_body_version (s : SessionState) (t : Nat) (bs : List Nat) :
    (read_body s t bs).1.clientVersion = s.clientVersion := by
  unfold read_body
  split
  · rfl
  · split <;> rfl

theorem dispatch_step_version (s : SessionState) (p : Pending)
    (bs : List Nat) (h : s.clientVersion ≠ Version.unknown) :
    (dispatch_step s p bs).1.clientVersion = s.clientVersion := by
  unfold dispatch_step
  rcases p with _ | _ | n | ⟨t, L⟩ <;> rcases bs with _ | ⟨b, rest⟩
  · rfl
  · exact read_sync_first_version s b
  · rfl
  · exact read_sync_second_version s b h
  · exact read_id_length_version s []
  · exact read_id_length_version s (b :: rest)
  · exact read_body_version s t []
  · exact read_body_version s t (b :: rest)

theorem session_run_version (fuel : Nat) :
    ∀ s p input, s.clientVersion ≠ Version.unknown →
      (session_run fuel s p input).1.clientVersion = s.clientVersion := by
  induction fuel with
  | zero =>
    intro s p input h
    rfl
  | succ n ih =>
    intro s p input h
    simp only [session_run]
    split
    · rfl
    · have hstep := dispatch_step_version s p
        (input.take (request_size p)) h
      rw [ih _ _ _ (by rw [hstep]; exact h), hstep]

/-- C4: a session is constructed with the version unknown; the first
recognized sync sequence while unknown fixes it (second byte 0xFF gives
VER1 and requests the 4-byte header, 0xFE gives VER2 and requests the
5-byte header); and once the version is not unknown, no amount of further
input processed by the receive machine ever changes it. -/
theorem c4_version_fixed_once :
    session_construct.clientVersion = Version.unknown ∧
    (∀ s, s.clientVersion = Version.unknown →
      read_sync_second s 255 =
        ({ s with clientVersion := Version.ver1 }, Pending.idLength 4) ∧
      read_sync_second s 254 =
        ({ s with clientVersion := Version.ver2 }, Pending.idLength 5)) ∧
    (∀ fuel s p input, s.clientVersion ≠ Version.unknown →
      (session_run fuel s p input).1.clientVersion = s.clientVersion) := by
  refine ⟨rfl, ?_, fun fuel => session_run_version fuel⟩
  intro s h
  constructor
  · simp [read_sync_second, h, buffer_read, buffer_max]
  · simp [read_sync_second, h, buffer_read, buffer_max]

/-- Witness for C4: a VER2 session fed the VER1 sync pair [255, 255] keeps
version VER2, and a fresh session fixes VER1 on [255, 255]. -/
theorem c4_version_fixed_once_witness :
    (session_run 2 session_ver2 Pending.syncFirst [255, 255]).1.clientVersion =
      session_ver2.clientVersion ∧
    read_sync_second session_construct 255 =
      ({ session_construct with clientVersion := Version.ver1 },
        Pending.idLength 4) :=
  ⟨c4_version_fixed_once.2.2 2 session_ver2 Pending.syncFirst [255, 255]
      (by decide),
    (c4_version_fixed_once.2.1 session_construct rfl).1⟩

/-! ### Claim C1: encode-then-decode -/

/-- C1 (code-bug evidence): encoding the empty payload on topic 0 for VER2
produces the bytes FF FF 00 00 00 00 FF 00 — the VER1 preamble, no VER2
length-checksum byte, and a trailing zero filling the eighth reserved
overhead byte — and feeding those bytes to a fresh receive machine fixes
the version to VER1, not VER2, dispatching under VER1 framing rules. -/
theorem c1_ver2_encode_not_ver2_framed :
    write_message [] 0 Version.ver2 =
      Except.ok [255, 255, 0, 0, 0, 0, 255, 0] ∧
    (session_run 8 session_construct Pending.syncFirst
        [255, 255, 0, 0, 0, 0, 255, 0]).1.clientVersion = Version.ver1 ∧
    (session_run 8 session_construct Pending.syncFirst
        [255, 255, 0, 0, 0, 0, 255, 0]).1.dispatches = [(0, [255])] :=
  ⟨rfl, by decide, by decide⟩

/-! ### Supporting analysis: the VER1 encode-decode round trip

The sender computes the checksum over the n payload bytes with stream
length n, while read_body recomputes it over the n + 1 received bytes
(payload plus checksum byte) with stream length n + 1.  The extra
checksum byte and the extra 1 in the length cancel exactly when
(n + 1) / 256 = n / 256, i.e. when n % 256 is not 255; otherwise even a
frame this very file encoded fails its own validation. -/

theorem roundtrip_checksum_valid (p : List Nat) (t : Nat)
    (hm : p.length % 256 ≠ 255) :
    message_checksum (p ++ [message_checksum p t]) t = 255 := by
  rw [message_checksum_eq_255, message_checksum_eq p t]
  simp only [List.sum_append, List.length_append, List.sum_cons,
    List.sum_nil, List.length_cons, List.length_nil, Nat.add_zero]
  set S := t / 256 + t + p.length / 256 + p.length + p.sum with hS
  have h1 : (p.length + 1) / 256 = p.length / 256 := by omega
  rw [h1]
  omega

theorem roundtrip_checksum_invalid (p : List Nat) (t : Nat)
    (hm : p.length % 256 = 255) :
    message_checksum (p ++ [message_checksum p t]) t ≠ 255 := by
  intro hbad
  rw [message_checksum_eq_255, message_checksum_eq p t] at hbad
  simp only [List.sum_append, List.length_append, List.sum_cons,
    List.sum_nil, List.length_cons, List.length_nil, Nat.add_zero] at hbad
  set S := t / 256 + t + p.length / 256 + p.length + p.sum with hS
  have h1 : (p.length + 1) / 256 = p.length / 256 + 1 := by omega
  rw [h1] at hbad
  omega

/-! ### Driver step lemmas -/

theorem session_run_sync_first (fuel : Nat) (s : SessionState) (b : Nat)
    (rest : List Nat) :
    session_run (fuel + 1) s Pending.syncFirst (b :: rest) =
      session_run fuel (read_sync_first s b).1 (read_sync_first s b).2 rest := by
  simp only [session_run, request_size, List.length_cons]
  rw [if_neg (by omega)]
  simp [dispatch_step]

theorem session_run_sync_second (fuel : Nat) (s : SessionState) (b : Nat)
    (rest : List Nat) :
    session_run (fuel + 1) s Pending.syncSecond (b :: rest) =
      session_run fuel (read_sync_second s b).1 (read_sync_second s b).2
        rest := by
  simp only [session_run, request_size, List.length_cons]
  rw [if_neg (by omega)]
  simp [dispatch_step]

theorem session_run_id_length4 (fuel : Nat) (s : SessionState)
    (b0 b1 b2 b3 : Nat) (rest : List Nat) :
    session_run (fuel + 1) s (Pending.idLength 4) (b0 :: b1 :: b2 :: b3 :: rest) =
      session_run fuel (read_id_length s [b0, b1, b2, b3]).1
        (read_id_length s [b0, b1, b2, b3]).2 rest := by
  simp only [session_run, request_size, List.length_cons]
  rw [if_neg (by omega)]
  simp [dispatch_step]

theorem session_run_body_exact (fuel : Nat) (s : SessionState) (t : Nat)
    (p : List Nat) (c : Nat) :
    session_run (fuel + 1) s (Pending.body t p.length) (p ++ [c]) =
      session_run fuel (read_body s t (p ++ [c])).1
        (read_body s t (p ++ [c])).2 [] := by
  have hlen : (p ++ [c]).length = p.length + 1 := by simp
  simp only [session_run, request_size]
  rw [if_neg (by omega), ← hlen, List.take_length, List.drop_length]
  simp [dispatch_step]

theorem read_sync_second_unknown_ff (s : SessionState)
    (h : s.clientVersion = Version.unknown) :
    read_sync_second s 255 =
      ({ s with clientVersion := Version.ver1 }, Pending.idLength 4) := by
  simp [read_sync_second, h, buffer_read, buffer_max]

theorem read_sync_second_unknown_fe (s : SessionState)
    (h : s.clientVersion = Version.unknown) :
    read_sync_second s 254 =
      ({ s with clientVersion := Version.ver2 }, Pending.idLength 5) := by
  simp [read_sync_second, h, buffer_read, buffer_max]

/-! ### The VER1 round trip, holding only under the extra restrictions -/

/-- The bytes write_message actually produces for VER1: the two sync bytes,
the little-endian topic id and payload length, the payload and the checksum
byte. -/
theorem ver1_write_message_bytes (p : List Nat) (t : Nat) (ht : t < 65536)
    (hp : p.length ≤ 65528) :
    write_message p t Version.ver1 =
      Except.ok (255 :: 255 :: (t % 256) :: (t / 256) :: (p.length % 256) ::
        (p.length / 256) :: (p ++ [message_checksum p t])) := by
  have hn : p.length % 65536 = p.length := Nat.mod_eq_of_lt (by omega)
  have hlen : (7 + p.length) % 65536 = 7 + p.length :=
    Nat.mod_eq_of_lt (by omega)
  have ht2 : t / 256 % 256 = t / 256 := Nat.mod_eq_of_lt (by omega)
  simp only [write_message, hn, hlen, ht2, List.length_append,
    List.length_cons, List.length_nil]
  rw [if_neg (by omega), if_neg (by simp; omega)]
  have h0 : 7 + p.length - (6 + p.length + 1) = 0 := by omega
  simp [h0]

/-- Feeding the VER1 wire bytes of topic t and payload p to a fresh receive
machine (version unknown) fixes VER1, validates the header and the body
checksum, and dispatches the body — payload plus checksum byte — to the
handler of t, provided the payload fits the reader (length at most 1022)
and its length does not have low byte 255 (roundtrip_checksum_invalid shows
the body checksum fails otherwise). -/
theorem ver1_roundtrip (s : SessionState) (t : Nat) (p : List Nat)
    (hv : s.clientVersion = Version.unknown)
    (hp : p.length ≤ 1022) (hm : p.length % 256 ≠ 255)
    (hcb : t ∈ s.callbacks) :
    session_run 5 s Pending.syncFirst
        (255 :: 255 :: (t % 256) :: (t / 256) :: (p.length % 256) ::
          (p.length / 256) :: (p ++ [message_checksum p t])) =
      ({ s with
          clientVersion := Version.ver1
          dispatches := s.dispatches ++ [(t, p ++ [message_checksum p t])] },
        Pending.syncFirst) := by
  have e1 : read_sync_first s 255 = (s, Pending.syncSecond) := rfl
  have e2 := read_sync_second_unknown_ff s hv
  have e3 : read_id_length { s with clientVersion := Version.ver1 }
      [t % 256, t / 256, p.length % 256, p.length / 256] =
      ({ s with clientVersion := Version.ver1 },
        Pending.body t p.length) := by
    have h1 : t % 256 + 256 * (t / 256) = t := by omega
    have h2 : p.length % 256 + 256 * (p.length / 256) = p.length := by omega
    have hmax : ¬ (INT16_MAX < p.length) := by
      unfold INT16_MAX
      omega
    have hbuf : ¬ (buffer_max < p.length + 1) := by
      unfold buffer_max
      omega
    simp [read_id_length, read_id_length_rest, h1, h2, hmax, buffer_read,
      hbuf]
  have e4 : read_body { s with clientVersion := Version.ver1 } t
      (p ++ [message_checksum p t]) =
      ({ s with
          clientVersion := Version.ver1
          dispatches := s.dispatches ++ [(t, p ++ [message_checksum p t])] },
        Pending.syncFirst) := by
    have hvalid := roundtrip_checksum_valid p t hm
    have hcb2 : t ∈ SessionState.callbacks
        { s with clientVersion := Version.ver1 } := hcb
    simp [read_body, hvalid, hcb2]
  simp only [session_run_sync_first, e1]
  simp only [session_run_sync_second, e2]
  simp only [session_run_id_length4, e3]
  simp only [session_run_body_exact, e4]
  simp [session_run, request_size]

end Session
